import Mathlib

/-!
# Verification of the trip_planner agent pipeline

A shallow embedding of the generator-output extraction and validation
pipeline of the trip_planner repository (src/main.py, src/core/base_agent.py,
src/models/schemas.py, src/agents/{itinerary,events,restaurant}_agent.py),
together with proofs about the embedded functions.

Conventions of the embedding:
* JSON values (the result of `json.loads`) are the inductive `Json`.
  A Python dict is a key/value list looked up front-to-back (`dictGet`).
* Python expressions that can raise are modelled in `Except String`,
  the `String` being the exception's `str(e)` rendering.  The exact text of
  messages produced by the Python runtime (TypeError, KeyError, pydantic
  ValidationError) is modelled by fixed strings; no theorem below depends on
  their wording, only on the messages the repository itself builds.
* The external LangChain generator call (`self.chain.ainvoke`) is an opaque
  dependency: its behaviour on one invocation is a value
  `gen : Except String String` (raised exception, or the `response.content`
  text).  Likewise `json.loads` is passed in as `parse`.
-/

/-- A generic structured-data value, as produced by `json.loads`. -/
inductive Json where
  | null : Json
  | bool : Bool → Json
  | num : Rat → Json
  | str : String → Json
  | arr : List Json → Json
  | obj : List (String × Json) → Json

/-- First-match lookup in a Python dict modelled as a key/value list. -/
def dictGet (k : String) : List (String × Json) → Option Json
  | [] => none
  | (k', v) :: rest => if k' == k then some v else dictGet k rest

/-- Substring test at every suffix: `subAt needle hay` is true when `needle`
occurs contiguously in `hay` (Python `needle in hay` for strings). -/
def subAt (needle : List Char) : List Char → Bool
  | [] => needle.isEmpty
  | c :: rest => needle.isPrefixOf (c :: rest) || subAt needle rest

/-- Python `needle in hay` for strings. -/
def strContainsSub (hay needle : String) : Bool := subAt needle.data hay.data

/-- Python `k in container`: key membership for dicts, element equality for
lists, substring for strings; TypeError for non-iterables. -/
def pyContains (container : Json) (k : String) : Except String Bool :=
  match container with
  | .obj kvs => .ok (dictGet k kvs).isSome
  | .arr xs => .ok (xs.any (fun x => match x with | .str s => s == k | _ => false))
  | .str s => .ok (strContainsSub s k)
  | _ => .error "TypeError: argument is not iterable"

/-- Python `for x in container`: the sequence of values iterated over.
Strings iterate their characters, dicts their keys; other scalars raise. -/
def pyIter : Json → Except String (List Json)
  | .arr xs => .ok xs
  | .str s => .ok (s.data.map (fun c => Json.str (String.singleton c)))
  | .obj kvs => .ok (kvs.map (fun p => Json.str p.1))
  | _ => .error "TypeError: object is not iterable"

/-- Python `container[k]` for a string key. -/
def pySubscript (container : Json) (k : String) : Except String Json :=
  match container with
  | .obj kvs =>
    match dictGet k kvs with
    | some v => .ok v
    | none => .error "KeyError"
  | _ => .error "TypeError: indices must be integers"

/-- Python `all(f in e for f in fields)`, short-circuiting, propagating a
TypeError raised by any membership test. -/
def pyAllContains (e : Json) : List String → Except String Bool
  | [] => .ok true
  | f :: rest =>
    match pyContains e f with
    | .error m => .error m
    | .ok true => pyAllContains e rest
    | .ok false => .ok false

/-! ## Text normalizer

`response_text = response.content.strip()` followed by the fence-stripping
block shared by all three agents (events_agent.py lines 106-110 and its
twins):

    if response_text.startswith("```json"): response_text = response_text[7:]
    if response_text.endswith("```"):       response_text = response_text[:-3]
    response_text = response_text.strip()
-/

/-- The whitespace stripped by Python `str.strip()` (ASCII part). -/
def isWS (c : Char) : Bool :=
  c == ' ' || c == '\t' || c == '\n' || c == '\r' || c == '\x0b' || c == '\x0c'

/-- Python `str.strip()` over the character list. -/
def pyStripL (l : List Char) : List Char :=
  List.rdropWhile isWS (List.dropWhile isWS l)

/-- Python `str.strip()`. -/
def pyStripStr (s : String) : String := ⟨pyStripL s.data⟩

/-- The opening decorative fence marker. -/
def fenceOpen : List Char := "```json".data

/-- The closing decorative fence marker. -/
def fenceClose : List Char := "```".data

/-- The fence-stripping block over the character list: drop a leading
"```json" if present, then drop a trailing "```" if present, then strip. -/
def cleanL (l : List Char) : List Char :=
  let l1 := if fenceOpen.isPrefixOf l then l.drop 7 else l
  let l2 := if fenceClose.isSuffixOf l1 then l1.take (l1.length - 3) else l1
  pyStripL l2

/-- The fence-stripping block (lines 106-110 of each agent). -/
def cleanResponseText (s : String) : String := ⟨cleanL s.data⟩

/-! ## Typed response models (src/models/schemas.py)

Pydantic field coercion is modelled by the exact-type parsers below: `str`
fields accept JSON strings, `float` fields JSON numbers, `bool` fields JSON
booleans.  (Pydantic v1 coerces a few more representations; none of the
values the pipeline is proved about exercises those coercions, and every
serialized model re-validates under the stricter parser, which is the only
property used.)  A failed construction models a raised ValidationError. -/

/-- Per-item validation over a list, first error wins (a pydantic
ValidationError on any element aborts the construction). -/
def mapExcept (f : Json → Except String α) : List Json → Except String (List α)
  | [] => .ok []
  | x :: rest =>
    match f x with
    | .error m => .error m
    | .ok y =>
      match mapExcept f rest with
      | .error m => .error m
      | .ok ys => .ok (y :: ys)

/-- A pydantic `str` field value. -/
def parseStrJ : Json → Except String String
  | .str s => .ok s
  | _ => .error "str type expected"

/-- A pydantic `float` field value. -/
def parseFloatJ : Json → Except String Rat
  | .num q => .ok q
  | _ => .error "value is not a valid float"

/-- A pydantic `bool` field value. -/
def parseBoolJ : Json → Except String Bool
  | .bool b => .ok b
  | _ => .error "value is not a valid bool"

/-- A required field of a pydantic model given the keyword-argument dict. -/
def reqField (kvs : List (String × Json)) (k : String) : Except String Json :=
  match dictGet k kvs with
  | some v => .ok v
  | none => .error ("field required: " ++ k)

/-- schemas.py `Event`: one event of an `EventResponse`. -/
structure Event where
  name : String
  description : String
  date : String
  location : String
  price : Rat
  category : String

/-- `Event(**j)` (pydantic v1 ignores extra keys). -/
def Event.fromJson : Json → Except String Event
  | .obj kvs =>
    match reqField kvs "name" |>.bind parseStrJ with
    | .error m => .error m
    | .ok name =>
    match reqField kvs "description" |>.bind parseStrJ with
    | .error m => .error m
    | .ok description =>
    match reqField kvs "date" |>.bind parseStrJ with
    | .error m => .error m
    | .ok date =>
    match reqField kvs "location" |>.bind parseStrJ with
    | .error m => .error m
    | .ok location =>
    match reqField kvs "price" |>.bind parseFloatJ with
    | .error m => .error m
    | .ok price =>
    match reqField kvs "category" |>.bind parseStrJ with
    | .error m => .error m
    | .ok category => .ok ⟨name, description, date, location, price, category⟩
  | _ => .error "value is not a valid dict"

/-- `Event.dict()`. -/
def Event.toJson (e : Event) : Json :=
  .obj [("name", .str e.name), ("description", .str e.description),
    ("date", .str e.date), ("location", .str e.location),
    ("price", .num e.price), ("category", .str e.category)]

/-- schemas.py `EventResponse`. -/
structure EventResponse where
  events : List Event

/-- `EventResponse(**j)`. -/
def EventResponse.fromJson : Json → Except String EventResponse
  | .obj kvs =>
    match dictGet "events" kvs with
    | some (.arr xs) =>
      match mapExcept Event.fromJson xs with
      | .error m => .error m
      | .ok evs => .ok ⟨evs⟩
    | some _ => .error "value is not a valid list"
    | none => .error "field required: events"
  | _ => .error "value is not a valid dict"

/-- `EventResponse.dict()`. -/
def EventResponse.toDict (r : EventResponse) : List (String × Json) :=
  [("events", .arr (r.events.map Event.toJson))]

/-- schemas.py `Restaurant`. -/
structure Restaurant where
  name : String
  cuisine : String
  rating : Rat
  price_range : String
  address : String
  reservation_available : Bool
  opening_hours : Option String

/-- `Restaurant(**j)` (`opening_hours` is `Optional[str] = None`). -/
def Restaurant.fromJson : Json → Except String Restaurant
  | .obj kvs =>
    match reqField kvs "name" |>.bind parseStrJ with
    | .error m => .error m
    | .ok name =>
    match reqField kvs "cuisine" |>.bind parseStrJ with
    | .error m => .error m
    | .ok cuisine =>
    match reqField kvs "rating" |>.bind parseFloatJ with
    | .error m => .error m
    | .ok rating =>
    match reqField kvs "price_range" |>.bind parseStrJ with
    | .error m => .error m
    | .ok pr =>
    match reqField kvs "address" |>.bind parseStrJ with
    | .error m => .error m
    | .ok address =>
    match reqField kvs "reservation_available" |>.bind parseBoolJ with
    | .error m => .error m
    | .ok resa =>
    match dictGet "opening_hours" kvs with
    | none => .ok ⟨name, cuisine, rating, pr, address, resa, none⟩
    | some .null => .ok ⟨name, cuisine, rating, pr, address, resa, none⟩
    | some (.str oh) => .ok ⟨name, cuisine, rating, pr, address, resa, some oh⟩
    | some _ => .error "str type expected"
  | _ => .error "value is not a valid dict"

/-- `Restaurant.dict()` (pydantic v1 `.dict()` keeps `None` fields). -/
def Restaurant.toJson (r : Restaurant) : Json :=
  .obj [("name", .str r.name), ("cuisine", .str r.cuisine),
    ("rating", .num r.rating), ("price_range", .str r.price_range),
    ("address", .str r.address), ("reservation_available", .bool r.reservation_available),
    ("opening_hours", match r.opening_hours with | none => .null | some s => .str s)]

/-- schemas.py `RestaurantResponse`. -/
structure RestaurantResponse where
  restaurants : List Restaurant

/-- `RestaurantResponse(**j)`. -/
def RestaurantResponse.fromJson : Json → Except String RestaurantResponse
  | .obj kvs =>
    match dictGet "restaurants" kvs with
    | some (.arr xs) =>
      match mapExcept Restaurant.fromJson xs with
      | .error m => .error m
      | .ok rs => .ok ⟨rs⟩
    | some _ => .error "value is not a valid list"
    | none => .error "field required: restaurants"
  | _ => .error "value is not a valid dict"

/-- `RestaurantResponse.dict()`. -/
def RestaurantResponse.toDict (r : RestaurantResponse) : List (String × Json) :=
  [("restaurants", .arr (r.restaurants.map Restaurant.toJson))]

/-- schemas.py `Activity`: one activity of a day plan. -/
structure Activity where
  name : String
  description : String
  start_time : String
  end_time : String
  location : String
  category : String

/-- `Activity(**j)`. -/
def Activity.fromJson : Json → Except String Activity
  | .obj kvs =>
    match reqField kvs "name" |>.bind parseStrJ with
    | .error m => .error m
    | .ok name =>
    match reqField kvs "description" |>.bind parseStrJ with
    | .error m => .error m
    | .ok description =>
    match reqField kvs "start_time" |>.bind parseStrJ with
    | .error m => .error m
    | .ok st =>
    match reqField kvs "end_time" |>.bind parseStrJ with
    | .error m => .error m
    | .ok et =>
    match reqField kvs "location" |>.bind parseStrJ with
    | .error m => .error m
    | .ok location =>
    match reqField kvs "category" |>.bind parseStrJ with
    | .error m => .error m
    | .ok category => .ok ⟨name, description, st, et, location, category⟩
  | _ => .error "value is not a valid dict"

/-- `Activity.dict()`. -/
def Activity.toJson (a : Activity) : Json :=
  .obj [("name", .str a.name), ("description", .str a.description),
    ("start_time", .str a.start_time), ("end_time", .str a.end_time),
    ("location", .str a.location), ("category", .str a.category)]

/-- schemas.py `DayPlan`. -/
structure DayPlan where
  date : String
  activities : List Activity

/-- `DayPlan(**j)`. -/
def DayPlan.fromJson : Json → Except String DayPlan
  | .obj kvs =>
    match reqField kvs "date" |>.bind parseStrJ with
    | .error m => .error m
    | .ok date =>
    match dictGet "activities" kvs with
    | some (.arr xs) =>
      match mapExcept Activity.fromJson xs with
      | .error m => .error m
      | .ok acts => .ok ⟨date, acts⟩
    | some _ => .error "value is not a valid list"
    | none => .error "field required: activities"
  | _ => .error "value is not a valid dict"

/-- `DayPlan.dict()`. -/
def DayPlan.toJson (d : DayPlan) : Json :=
  .obj [("date", .str d.date), ("activities", .arr (d.activities.map Activity.toJson))]

/-- schemas.py `ItineraryResponse`. -/
structure ItineraryResponse where
  days : List DayPlan

/-- `ItineraryResponse(days=v)`: the agent passes the `"days"` value
directly (itinerary_agent.py line 140). -/
def ItineraryResponse.fromDays : Json → Except String ItineraryResponse
  | .arr xs =>
    match mapExcept DayPlan.fromJson xs with
    | .error m => .error m
    | .ok ds => .ok ⟨ds⟩
  | _ => .error "value is not a valid list"

/-- `ItineraryResponse.dict()`. -/
def ItineraryResponse.toDict (r : ItineraryResponse) : List (String × Json) :=
  [("days", .arr (r.days.map DayPlan.toJson))]

/-! ## Inbound request validation and construction

`validate_input` of each agent (a flat `all(field in input_data ...)` /
`"date" in input_data` check), and the pydantic request-model constructions
`XRequest(**input_data)` that follow them in `process`.  Only whether the
construction raises is observable downstream (the constructed request is
used solely to build the prompt for the opaque generator call), so the
constructors are modelled as checks returning `Except String Unit`. -/

/-- events_agent.py `validate_input`: requires location, date, preferences,
budget (note: `date`, not `event_date`). -/
def eventsValidateInput (input : List (String × Json)) : Bool :=
  ["location", "date", "preferences", "budget"].all (fun f => (dictGet f input).isSome)

/-- itinerary_agent.py `validate_input`. -/
def itineraryValidateInput (input : List (String × Json)) : Bool :=
  ["destination", "start_date", "preferences", "days"].all (fun f => (dictGet f input).isSome)

/-- restaurant_agent.py `validate_input`: only `date` is required, the other
fields have defaults. -/
def restaurantValidateInput (input : List (String × Json)) : Bool :=
  (dictGet "date" input).isSome

/-- A pydantic `date` field: an ISO `YYYY-MM-DD` string (simplified model of
pydantic v1 date parsing; enough for the concrete values used below). -/
def parseDateJ : Json → Except String Unit
  | .str s =>
    match s.data with
    | [y1, y2, y3, y4, '-', m1, m2, '-', d1, d2] =>
      if [y1, y2, y3, y4, m1, m2, d1, d2].all Char.isDigit then .ok ()
      else .error "invalid date format"
    | _ => .error "invalid date format"
  | _ => .error "invalid date format"

/-- A pydantic `List[str]` field. -/
def parseStrListJ : Json → Except String Unit
  | .arr xs =>
    match mapExcept parseStrJ xs with
    | .error m => .error m
    | .ok _ => .ok ()
  | _ => .error "value is not a valid list"

/-- An optional field with a default: absent is fine, present must parse. -/
def optField (kvs : List (String × Json)) (k : String) (p : Json → Except String Unit) :
    Except String Unit :=
  match dictGet k kvs with
  | none => .ok ()
  | some v => p v

/-- `EventRequest(**input_data)`: location (default), event_date (required
date), preferences (required list of str), budget (required float).
Extra keys are ignored (pydantic v1 default). -/
def eventRequestNew (input : List (String × Json)) : Except String Unit :=
  match optField input "location" (fun v => (parseStrJ v).map (fun _ => ())) with
  | .error m => .error m
  | .ok () =>
  match reqField input "event_date" |>.bind parseDateJ with
  | .error m => .error m
  | .ok () =>
  match reqField input "preferences" |>.bind parseStrListJ with
  | .error m => .error m
  | .ok () =>
  match reqField input "budget" |>.bind (fun v => (parseFloatJ v).map (fun _ => ())) with
  | .error m => .error m
  | .ok () => .ok ()

/-- `ItineraryRequest(**input_data)`: destination (default), start_date
(required date), days (required int, modelled as a JSON number), preferences
(required list of str), budget (optional float or null). -/
def itineraryRequestNew (input : List (String × Json)) : Except String Unit :=
  match optField input "destination" (fun v => (parseStrJ v).map (fun _ => ())) with
  | .error m => .error m
  | .ok () =>
  match reqField input "start_date" |>.bind parseDateJ with
  | .error m => .error m
  | .ok () =>
  match reqField input "days" |>.bind (fun v => (parseFloatJ v).map (fun _ => ())) with
  | .error m => .error m
  | .ok () =>
  match reqField input "preferences" |>.bind parseStrListJ with
  | .error m => .error m
  | .ok () =>
  match optField input "budget"
      (fun v => match v with | .null => .ok () | v => (parseFloatJ v).map (fun _ => ())) with
  | .error m => .error m
  | .ok () => .ok ()

/-- `RestaurantRequest(**input_data)`: location, cuisine_preferences,
price_range, party_size all have defaults; date is required. -/
def restaurantRequestNew (input : List (String × Json)) : Except String Unit :=
  match optField input "location" (fun v => (parseStrJ v).map (fun _ => ())) with
  | .error m => .error m
  | .ok () =>
  match reqField input "date" |>.bind parseDateJ with
  | .error m => .error m
  | .ok () =>
  match optField input "cuisine_preferences" parseStrListJ with
  | .error m => .error m
  | .ok () =>
  match optField input "price_range" (fun v => (parseStrJ v).map (fun _ => ())) with
  | .error m => .error m
  | .ok () =>
  match optField input "party_size"
      (fun v => match v with | .null => .ok () | v => (parseFloatJ v).map (fun _ => ())) with
  | .error m => .error m
  | .ok () => .ok ()

/-! ## Agent contract (src/core/base_agent.py) and the three `process`
pipelines -/

/-- base_agent.py `AgentResponse`: the uniform response envelope.  `data` is
a Python dict, the empty dict `{}` being `[]`. -/
structure AgentResponse where
  success : Bool
  data : List (String × Json)
  error : Option String

/-- base_agent.py `BaseAgent.handle_error`: any exception becomes a failed
envelope carrying `str(error)`. -/
def handleError (m : String) : AgentResponse := ⟨false, [], some m⟩

/-- The per-item required-field loop shared by the events and restaurant
agents: `for item in items: if not all(field in item for field in
required_fields): return invalid`.  `.ok true` = every item passed,
`.ok false` = a first incomplete item was found (fail-fast),
`.error` = a membership test raised. -/
def checkItemsFlat (fields : List String) : List Json → Except String Bool
  | [] => .ok true
  | e :: rest =>
    match pyAllContains e fields with
    | .error m => .error m
    | .ok true => checkItemsFlat fields rest
    | .ok false => .ok false

/-- The required item fields of the events domain (events_agent.py line 126). -/
def eventItemFields : List String :=
  ["name", "description", "date", "location", "price", "category"]

/-- The required item fields of the restaurant domain
(restaurant_agent.py line 137). -/
def restaurantItemFields : List String :=
  ["name", "cuisine", "rating", "price_range", "address", "reservation_available"]

/-- The required activity fields of the itinerary domain
(itinerary_agent.py line 131). -/
def activityItemFields : List String :=
  ["name", "description", "start_time", "end_time", "location", "category"]

/-- The structure-validation block of a flat agent: container-key check then
the per-item loop, returning `some errorMessage` on rejection, `none` when
the record passed. -/
def flatValidate (key errMissing errBad : String) (fields : List String) (d : Json) :
    Except String (Option String) :=
  match pyContains d key with
  | .error m => .error m
  | .ok false => .ok (some errMissing)
  | .ok true =>
    match pySubscript d key with
    | .error m => .error m
    | .ok v =>
      match pyIter v with
      | .error m => .error m
      | .ok items =>
        match checkItemsFlat fields items with
        | .error m => .error m
        | .ok true => .ok none
        | .ok false => .ok (some errBad)

/-- events_agent.py lines 117-140, after `json.loads` succeeded: structural
validation then `EventResponse(**events_data)`; a raised exception is
`.error` (caught by the enclosing `except Exception`). -/
def eventsAfterParse (d : Json) : Except String AgentResponse :=
  match flatValidate "events" "Response missing 'events' array"
      "Invalid event structure in response" eventItemFields d with
  | .error m => .error m
  | .ok (some err) => .ok ⟨false, [], some err⟩
  | .ok none =>
    match EventResponse.fromJson d with
    | .error m => .error m
    | .ok r => .ok ⟨true, EventResponse.toDict r, none⟩

/-- restaurant_agent.py lines 128-151 after `json.loads`. -/
def restaurantAfterParse (d : Json) : Except String AgentResponse :=
  match flatValidate "restaurants" "Response missing 'restaurants' array"
      "Invalid restaurant structure in response" restaurantItemFields d with
  | .error m => .error m
  | .ok (some err) => .ok ⟨false, [], some err⟩
  | .ok none =>
    match RestaurantResponse.fromJson d with
    | .error m => .error m
    | .ok r => .ok ⟨true, RestaurantResponse.toDict r, none⟩

/-- itinerary_agent.py lines 121-137: the nested day/activity loop.
`.ok (some msg)` = a day or activity was rejected with `msg`;
`.ok none` = all days passed. -/
def checkDays : List Json → Except String (Option String)
  | [] => .ok none
  | d :: rest =>
    match pyContains d "date" with
    | .error m => .error m
    | .ok false => .ok (some "Invalid day structure in response")
    | .ok true =>
      match pyContains d "activities" with
      | .error m => .error m
      | .ok false => .ok (some "Invalid day structure in response")
      | .ok true =>
        match pySubscript d "activities" with
        | .error m => .error m
        | .ok av =>
          match pyIter av with
          | .error m => .error m
          | .ok acts =>
            match checkItemsFlat activityItemFields acts with
            | .error m => .error m
            | .ok false => .ok (some "Invalid activity structure in response")
            | .ok true => checkDays rest

/-- itinerary_agent.py lines 110-145 after `json.loads`: days-container
check, nested loop, then `ItineraryResponse(days=itinerary_data["days"])`. -/
def itineraryAfterParse (d : Json) : Except String AgentResponse :=
  match pyContains d "days" with
  | .error m => .error m
  | .ok false => .ok ⟨false, [], some "Response missing 'days' array"⟩
  | .ok true =>
    match pySubscript d "days" with
    | .error m => .error m
    | .ok v =>
      match pyIter v with
      | .error m => .error m
      | .ok days =>
        match checkDays days with
        | .error m => .error m
        | .ok (some err) => .ok ⟨false, [], some err⟩
        | .ok none =>
          match ItineraryResponse.fromDays v with
          | .error m => .error m
          | .ok r => .ok ⟨true, ItineraryResponse.toDict r, none⟩

/-- The `try/except` around the record handling (`except Exception` arm of
the parse block): a raised exception becomes a failed envelope with the
domain's "Failed to process" prefix. -/
def recordStage (afterParse : Json → Except String AgentResponse) (prefixMsg : String)
    (d : Json) : AgentResponse :=
  match afterParse d with
  | .ok env => env
  | .error m => ⟨false, [], some (prefixMsg ++ m)⟩

/-- events_agent.py: the parse `try` block applied to an already-parsed
record. -/
def eventsRecordStage (d : Json) : AgentResponse :=
  recordStage eventsAfterParse "Failed to process events: " d

/-- restaurant_agent.py: the parse `try` block applied to a record. -/
def restaurantRecordStage (d : Json) : AgentResponse :=
  recordStage restaurantAfterParse "Failed to process restaurants: " d

/-- itinerary_agent.py: the parse `try` block applied to a record. -/
def itineraryRecordStage (d : Json) : AgentResponse :=
  recordStage itineraryAfterParse "Failed to process itinerary: " d

/-- The whole parse block: `json.loads` (its `JSONDecodeError` arm) then the
record handling. -/
def parseStage (parse : String → Except String Json) (parseErrPrefix : String)
    (stage : Json → AgentResponse) (text : String) : AgentResponse :=
  match parse text with
  | .error m => ⟨false, [], some (parseErrPrefix ++ m)⟩
  | .ok d => stage d

/-- events_agent.py `process`, body inside the outermost `try`.  A `.error`
is an exception escaping to the outer boundary (here: only the
`EventRequest(**input_data)` construction can raise one). -/
def eventsProcessBody (parse : String → Except String Json) (gen : Except String String)
    (input : List (String × Json)) : Except String AgentResponse :=
  if !eventsValidateInput input then .ok ⟨false, [], some "Invalid input data"⟩
  else
    match eventRequestNew input with
    | .error m => .error m
    | .ok () =>
      match gen with
      | .error m => .ok ⟨false, [], some ("Failed to generate events: " ++ m)⟩
      | .ok content =>
        .ok (parseStage parse "Failed to parse events response: " eventsRecordStage
          (cleanResponseText (pyStripStr content)))

/-- events_agent.py `process`: the outermost `try/except` converts any
escaping exception via `handle_error`. -/
def eventsProcess (parse : String → Except String Json) (gen : Except String String)
    (input : List (String × Json)) : AgentResponse :=
  match eventsProcessBody parse gen input with
  | .ok env => env
  | .error m => handleError m

/-- restaurant_agent.py `process` body inside the outermost `try`. -/
def restaurantProcessBody (parse : String → Except String Json) (gen : Except String String)
    (input : List (String × Json)) : Except String AgentResponse :=
  if !restaurantValidateInput input then .ok ⟨false, [], some "Invalid input data"⟩
  else
    match restaurantRequestNew input with
    | .error m => .error m
    | .ok () =>
      match gen with
      | .error m => .ok ⟨false, [], some ("Failed to generate restaurants: " ++ m)⟩
      | .ok content =>
        .ok (parseStage parse "Failed to parse restaurants response: " restaurantRecordStage
          (cleanResponseText (pyStripStr content)))

/-- restaurant_agent.py `process`. -/
def restaurantProcess (parse : String → Except String Json) (gen : Except String String)
    (input : List (String × Json)) : AgentResponse :=
  match restaurantProcessBody parse gen input with
  | .ok env => env
  | .error m => handleError m

/-- itinerary_agent.py `process` body inside the outermost `try`. -/
def itineraryProcessBody (parse : String → Except String Json) (gen : Except String String)
    (input : List (String × Json)) : Except String AgentResponse :=
  if !itineraryValidateInput input then .ok ⟨false, [], some "Invalid input data"⟩
  else
    match itineraryRequestNew input with
    | .error m => .error m
    | .ok () =>
      match gen with
      | .error m => .ok ⟨false, [], some ("Failed to generate itinerary: " ++ m)⟩
      | .ok content =>
        .ok (parseStage parse "Failed to parse itinerary response: " itineraryRecordStage
          (cleanResponseText (pyStripStr content)))

/-- itinerary_agent.py `process`. -/
def itineraryProcess (parse : String → Except String Json) (gen : Except String String)
    (input : List (String × Json)) : AgentResponse :=
  match itineraryProcessBody parse gen input with
  | .ok env => env
  | .error m => handleError m

/-! ## HTTP endpoints (src/main.py)

Each endpoint runs the agent, and on a failed envelope executes
`raise HTTPException(status_code=400, detail=response.error)` *inside* a
`try` block whose `except Exception as e` clause re-raises
`HTTPException(status_code=500, detail=str(e))`.  Since FastAPI's
`HTTPException` is an `Exception` subclass, the 400 raise is itself caught
by that blanket handler; the response the transport layer finally sees is
the uncaught exception of the handler. -/

/-- fastapi/starlette `HTTPException` (detail defaults to the status phrase
when `None` is passed; only 400 arises below, whose phrase is
"Bad Request"). -/
structure HTTPException where
  status_code : Nat
  detail : String

/-- `str(e)` for a starlette `HTTPException`: "<code>: <detail>". -/
def httpExcStr (e : HTTPException) : String :=
  toString e.status_code ++ ": " ++ e.detail

/-- What the transport layer sends back for one endpoint call. -/
inductive EndpointResult where
  | ok : List (String × Json) → EndpointResult
  | httpError : Nat → String → EndpointResult

/-- The body of an endpoint's `try` block given the agent's envelope:
return `response.data`, or raise `HTTPException(400, response.error)`. -/
def endpointBody (env : AgentResponse) : Except HTTPException (List (String × Json)) :=
  if env.success then .ok env.data
  else .error ⟨400, env.error.getD "Bad Request"⟩

/-- The endpoint's `try/except`: any exception of the body — including the
explicit 400 `HTTPException` — is caught by `except Exception` and
re-raised as `HTTPException(500, str(e))`. -/
def runEndpoint (env : AgentResponse) : EndpointResult :=
  match endpointBody env with
  | .ok d => .ok d
  | .error e => .httpError 500 (httpExcStr e)

/-- main.py `get_events` (POST /api/events). -/
def getEvents (parse : String → Except String Json) (gen : Except String String)
    (input : List (String × Json)) : EndpointResult :=
  runEndpoint (eventsProcess parse gen input)

/-- main.py `generate_itinerary` (POST /api/itinerary). -/
def generateItinerary (parse : String → Except String Json) (gen : Except String String)
    (input : List (String × Json)) : EndpointResult :=
  runEndpoint (itineraryProcess parse gen input)

/-! ## Auxiliary definitions used by the statements below -/

/-- Whether an `Except` computation succeeded. -/
def isOkE : Except String α → Bool
  | .ok _ => true
  | .error _ => false

/-- `ItineraryResponse(**j)`: deserializing an itinerary response dict. -/
def ItineraryResponse.fromJson : Json → Except String ItineraryResponse
  | .obj kvs =>
    match dictGet "days" kvs with
    | some v => ItineraryResponse.fromDays v
    | none => .error "field required: days"
  | _ => .error "value is not a valid dict"

/-- The shapes an events envelope can take: failed with empty data, or
successful holding a serialized `EventResponse`. -/
def GoodEvents (env : AgentResponse) : Prop :=
  (env.success = false ∧ env.data = []) ∨
    ∃ r : EventResponse, env = ⟨true, EventResponse.toDict r, none⟩

/-- The shapes a restaurants envelope can take. -/
def GoodRestaurants (env : AgentResponse) : Prop :=
  (env.success = false ∧ env.data = []) ∨
    ∃ r : RestaurantResponse, env = ⟨true, RestaurantResponse.toDict r, none⟩

/-- The shapes an itinerary envelope can take. -/
def GoodItinerary (env : AgentResponse) : Prop :=
  (env.success = false ∧ env.data = []) ∨
    ∃ r : ItineraryResponse, env = ⟨true, ItineraryResponse.toDict r, none⟩

/-! ## Shared lemmas -/

/-- Serialization/deserialization round trip for item lists. -/
theorem mapExcept_map (f : Json → Except String α) (g : α → Json)
    (h : ∀ x, f (g x) = .ok x) : ∀ l : List α, mapExcept f (l.map g) = .ok l
  | [] => rfl
  | x :: rest => by
    simp only [List.map_cons, mapExcept, h x, mapExcept_map f g h rest]

/-- An `Event` survives `.dict()` then re-validation. -/
theorem event_roundtrip (e : Event) : Event.fromJson (Event.toJson e) = .ok e := rfl

/-- An `Activity` survives `.dict()` then re-validation. -/
theorem activity_roundtrip (a : Activity) : Activity.fromJson (Activity.toJson a) = .ok a := rfl

/-- A `Restaurant` survives `.dict()` then re-validation. -/
theorem restaurant_roundtrip (r : Restaurant) :
    Restaurant.fromJson (Restaurant.toJson r) = .ok r := by
  cases r with
  | mk n c rt pr ad ra oh => cases oh <;> rfl

/-- A `DayPlan` survives `.dict()` then re-validation. -/
theorem dayPlan_roundtrip (d : DayPlan) : DayPlan.fromJson (DayPlan.toJson d) = .ok d := by
  cases d with
  | mk date acts =>
    simp [DayPlan.toJson, DayPlan.fromJson, reqField, dictGet, parseStrJ, Except.bind,
      mapExcept_map Activity.fromJson Activity.toJson activity_roundtrip]

/-- An `EventResponse` deserializes back from its `.dict()`. -/
theorem eventResponse_roundtrip (r : EventResponse) :
    EventResponse.fromJson (.obj (EventResponse.toDict r)) = .ok r := by
  cases r with
  | mk evs =>
    simp [EventResponse.toDict, EventResponse.fromJson, dictGet,
      mapExcept_map Event.fromJson Event.toJson event_roundtrip]

/-- A `RestaurantResponse` deserializes back from its `.dict()`. -/
theorem restaurantResponse_roundtrip (r : RestaurantResponse) :
    RestaurantResponse.fromJson (.obj (RestaurantResponse.toDict r)) = .ok r := by
  cases r with
  | mk rs =>
    simp [RestaurantResponse.toDict, RestaurantResponse.fromJson, dictGet,
      mapExcept_map Restaurant.fromJson Restaurant.toJson restaurant_roundtrip]

/-- An `ItineraryResponse` deserializes back from its `.dict()`. -/
theorem itineraryResponse_roundtrip (r : ItineraryResponse) :
    ItineraryResponse.fromJson (.obj (ItineraryResponse.toDict r)) = .ok r := by
  cases r with
  | mk ds =>
    simp [ItineraryResponse.toDict, ItineraryResponse.fromJson, ItineraryResponse.fromDays,
      dictGet, mapExcept_map DayPlan.fromJson DayPlan.toJson dayPlan_roundtrip]

/-- A dict item missing one of the required fields fails the
`all(field in event ...)` membership check. -/
theorem pyAllContains_obj_missing {f : String} {bk : List (String × Json)}
    (hmiss : dictGet f bk = none) :
    ∀ {fields : List String}, f ∈ fields → pyAllContains (.obj bk) fields = .ok false := by
  intro fields
  induction fields with
  | nil => intro hf; cases hf
  | cons g rest ih =>
    intro hf
    rcases List.mem_cons.mp hf with hfg | hf'
    · subst hfg
      simp [pyAllContains, pyContains, hmiss]
    · cases hdg : (dictGet g bk).isSome with
      | true => simpa [pyAllContains, pyContains, hdg] using ih hf'
      | false => simp [pyAllContains, pyContains, hdg]

/-- The per-item loop is fail-fast: with every earlier item complete and one
incomplete item next, it stops there reporting failure, whatever follows. -/
theorem checkItemsFlat_first_bad {fields : List String} {bad : Json} {post : List Json} :
    ∀ {pre : List Json}, (∀ e ∈ pre, pyAllContains e fields = .ok true) →
      pyAllContains bad fields = .ok false →
      checkItemsFlat fields (pre ++ bad :: post) = .ok false := by
  intro pre
  induction pre with
  | nil => intro _ hbad; simp [checkItemsFlat, hbad]
  | cons e rest ih =>
    intro hpre hbad
    have he := hpre e (List.mem_cons_self _ _)
    simp only [List.cons_append, checkItemsFlat, he]
    exact ih (fun x hx => hpre x (List.mem_cons_of_mem _ hx)) hbad

/-- When every item of the sequence is complete the loop accepts. -/
theorem checkItemsFlat_all_ok {fields : List String} :
    ∀ {items : List Json}, (∀ e ∈ items, pyAllContains e fields = .ok true) →
      checkItemsFlat fields items = .ok true := by
  intro items
  induction items with
  | nil => intro _; rfl
  | cons e rest ih =>
    intro h
    have he := h e (List.mem_cons_self _ _)
    simp only [checkItemsFlat, he]
    exact ih (fun x hx => h x (List.mem_cons_of_mem _ hx))

/-- Left-stripping after a full strip changes nothing: the stripped list's
head (if any) is not whitespace. -/
theorem dropWhile_rdropWhile (p : α → Bool) (l : List α) :
    List.dropWhile p (List.rdropWhile p (List.dropWhile p l)) =
      List.rdropWhile p (List.dropWhile p l) := by
  have hpre := List.rdropWhile_prefix p (List.dropWhile p l)
  apply List.dropWhile_eq_self_iff.mpr
  intro hl
  have hlen : 0 < (List.dropWhile p l).length :=
    lt_of_lt_of_le hl hpre.length_le
  have hh := List.dropWhile_get_zero_not p l hlen
  simp only [List.get_eq_getElem] at hh ⊢
  rw [hpre.getElem hl]
  exact hh

/-- Python `strip()` is idempotent. -/
theorem pyStripL_idem (l : List Char) : pyStripL (pyStripL l) = pyStripL l := by
  unfold pyStripL
  rw [dropWhile_rdropWhile, List.rdropWhile_idempotent]

/-- Any property holding for every exception envelope and every normal
result of a record stage holds for the stage's outcome. -/
theorem recordStage_cases {after : Json → Except String AgentResponse} {pm : String}
    {G : AgentResponse → Prop}
    (hA : ∀ d env, after d = .ok env → G env)
    (hF : ∀ m, G ⟨false, [], some m⟩) (d : Json) : G (recordStage after pm d) := by
  unfold recordStage
  cases h : after d with
  | error m => exact hF _
  | ok env => exact hA d env h

/-- The same closure property lifted through the parse block. -/
theorem parseStage_cases {parse : String → Except String Json} {pm : String}
    {stage : Json → AgentResponse} {G : AgentResponse → Prop}
    (hS : ∀ d, G (stage d)) (hF : ∀ m, G ⟨false, [], some m⟩) (text : String) :
    G (parseStage parse pm stage text) := by
  unfold parseStage
  cases h : parse text with
  | error m => exact hF _
  | ok d => exact hS d

/-- Every envelope the events record handling can produce is failed-empty or
a serialized `EventResponse`. -/
theorem eventsAfterParse_good (d : Json) (env : AgentResponse)
    (h : eventsAfterParse d = .ok env) : GoodEvents env := by
  unfold eventsAfterParse at h
  split at h
  · exact absurd h (by simp)
  · cases h
    exact Or.inl ⟨rfl, rfl⟩
  · split at h
    · exact absurd h (by simp)
    · cases h
      exact Or.inr ⟨_, rfl⟩

/-- The record stage of the events agent only produces good envelopes. -/
theorem eventsRecordStage_good (d : Json) : GoodEvents (eventsRecordStage d) :=
  recordStage_cases eventsAfterParse_good (fun _ => Or.inl ⟨rfl, rfl⟩) d

/-- The events `process` only produces good envelopes. -/
theorem eventsProcess_good (parse : String → Except String Json) (gen : Except String String)
    (input : List (String × Json)) : GoodEvents (eventsProcess parse gen input) := by
  unfold eventsProcess
  cases hb : eventsProcessBody parse gen input with
  | error m => exact Or.inl ⟨rfl, rfl⟩
  | ok env =>
    unfold eventsProcessBody at hb
    split at hb
    · cases hb
      exact Or.inl ⟨rfl, rfl⟩
    · split at hb
      · exact absurd hb (by simp)
      · split at hb
        · cases hb
          exact Or.inl ⟨rfl, rfl⟩
        · cases hb
          exact parseStage_cases eventsRecordStage_good (fun _ => Or.inl ⟨rfl, rfl⟩) _

/-- Every envelope the restaurant record handling can produce is
failed-empty or a serialized `RestaurantResponse`. -/
theorem restaurantAfterParse_good (d : Json) (env : AgentResponse)
    (h : restaurantAfterParse d = .ok env) : GoodRestaurants env := by
  unfold restaurantAfterParse at h
  split at h
  · exact absurd h (by simp)
  · cases h
    exact Or.inl ⟨rfl, rfl⟩
  · split at h
    · exact absurd h (by simp)
    · cases h
      exact Or.inr ⟨_, rfl⟩

/-- The record stage of the restaurant agent only produces good envelopes. -/
theorem restaurantRecordStage_good (d : Json) : GoodRestaurants (restaurantRecordStage d) :=
  recordStage_cases restaurantAfterParse_good (fun _ => Or.inl ⟨rfl, rfl⟩) d

/-- The restaurant `process` only produces good envelopes. -/
theorem restaurantProcess_good (parse : String → Except String Json) (gen : Except String String)
    (input : List (String × Json)) : GoodRestaurants (restaurantProcess parse gen input) := by
  unfold restaurantProcess
  cases hb : restaurantProcessBody parse gen input with
  | error m => exact Or.inl ⟨rfl, rfl⟩
  | ok env =>
    unfold restaurantProcessBody at hb
    split at hb
    · cases hb
      exact Or.inl ⟨rfl, rfl⟩
    · split at hb
      · exact absurd hb (by simp)
      · split at hb
        · cases hb
          exact Or.inl ⟨rfl, rfl⟩
        · cases hb
          exact parseStage_cases restaurantRecordStage_good (fun _ => Or.inl ⟨rfl, rfl⟩) _

/-- Every envelope the itinerary record handling can produce is failed-empty
or a serialized `ItineraryResponse`. -/
theorem itineraryAfterParse_good (d : Json) (env : AgentResponse)
    (h : itineraryAfterParse d = .ok env) : GoodItinerary env := by
  unfold itineraryAfterParse at h
  split at h
  · exact absurd h (by simp)
  · cases h
    exact Or.inl ⟨rfl, rfl⟩
  · split at h
    · exact absurd h (by simp)
    · split at h
      · exact absurd h (by simp)
      · split at h
        · exact absurd h (by simp)
        · cases h
          exact Or.inl ⟨rfl, rfl⟩
        · split at h
          · exact absurd h (by simp)
          · cases h
            exact Or.inr ⟨_, rfl⟩

/-- The record stage of the itinerary agent only produces good envelopes. -/
theorem itineraryRecordStage_good (d : Json) : GoodItinerary (itineraryRecordStage d) :=
  recordStage_cases itineraryAfterParse_good (fun _ => Or.inl ⟨rfl, rfl⟩) d

/-- The itinerary `process` only produces good envelopes. -/
theorem itineraryProcess_good (parse : String → Except String Json) (gen : Except String String)
    (input : List (String × Json)) : GoodItinerary (itineraryProcess parse gen input) := by
  unfold itineraryProcess
  cases hb : itineraryProcessBody parse gen input with
  | error m => exact Or.inl ⟨rfl, rfl⟩
  | ok env =>
    unfold itineraryProcessBody at hb
    split at hb
    · cases hb
      exact Or.inl ⟨rfl, rfl⟩
    · split at hb
      · exact absurd hb (by simp)
      · split at hb
        · cases hb
          exact Or.inl ⟨rfl, rfl⟩
        · cases hb
          exact parseStage_cases itineraryRecordStage_good (fun _ => Or.inl ⟨rfl, rfl⟩) _

/-! ## The claims -/

/-- C10: the restaurant variant's `validate_input` is exactly the presence
of the single key "date", whatever else the mapping holds, while the
itinerary and events variants each demand four distinct keys. -/
theorem C10_validate_input_required_keys :
    (∀ input : List (String × Json),
      restaurantValidateInput input = (dictGet "date" input).isSome
      ∧ (itineraryValidateInput input = true ↔
          ((dictGet "destination" input).isSome = true
            ∧ (dictGet "start_date" input).isSome = true
            ∧ (dictGet "preferences" input).isSome = true
            ∧ (dictGet "days" input).isSome = true))
      ∧ (eventsValidateInput input = true ↔
          ((dictGet "location" input).isSome = true
            ∧ (dictGet "date" input).isSome = true
            ∧ (dictGet "preferences" input).isSome = true
            ∧ (dictGet "budget" input).isSome = true)))
    ∧ ["destination", "start_date", "preferences", "days"].Nodup
    ∧ ["location", "date", "preferences", "budget"].Nodup := by
  refine ⟨fun input => ⟨rfl, ?_, ?_⟩, by decide, by decide⟩
  · simp [itineraryValidateInput, and_assoc]
  · simp [eventsValidateInput, and_assoc]

/-- C4 (code bug): `EventsAgent.validate_input` requires a key "date" that a
well-formed `EventRequest` mapping (whose date key is "event_date", as
main.py `get_events` passes via `request.dict()`) never contains, so such a
mapping is rejected and `process` fails with "Invalid input data". -/
theorem C4_events_validate_input_rejects_request_dict :
    eventsValidateInput
      [("location", .str "Seattle"), ("event_date", .str "2024-04-01"),
        ("preferences", .arr [.str "music"]), ("budget", .num 100)] = false
    ∧ eventsProcess (fun _ => .error "unused") (.error "unused")
        [("location", .str "Seattle"), ("event_date", .str "2024-04-01"),
          ("preferences", .arr [.str "music"]), ("budget", .num 100)]
      = ⟨false, [], some "Invalid input data"⟩
    ∧ eventRequestNew
        [("location", .str "Seattle"), ("event_date", .str "2024-04-01"),
          ("preferences", .arr [.str "music"]), ("budget", .num 100)] = .ok () := by
  exact ⟨rfl, rfl, rfl⟩

/-- C5 (code bug): a failed envelope does not surface as HTTP 400 — the
endpoint's own `HTTPException(400, ...)` is caught by its blanket
`except Exception` and re-raised as HTTP 500 with `str(e)` as detail. -/
theorem C5_failed_envelope_yields_http_500 :
    getEvents (fun _ => .error "nojson") (.error "down") []
      = .httpError 500 "400: Invalid input data"
    ∧ generateItinerary (fun _ => .error "nojson") (.error "down") []
      = .httpError 500 "400: Invalid input data"
    ∧ (eventsProcess (fun _ => .error "nojson") (.error "down") []).success = false
    ∧ (eventsProcess (fun _ => .error "nojson") (.error "down") []).error
      = some "Invalid input data" := by
  exact ⟨rfl, rfl, rfl, rfl⟩

/-- C6 (amended): a parsed record whose dict lacks the "events" key is
rejected with the missing-container message, whatever else it holds.  (The
claim's further clause — that a present but non-sequence container value
fails the same way — is refuted by `C6_counterexample`.) -/
theorem C6_missing_container_key (kvs : List (String × Json))
    (h : dictGet "events" kvs = none) :
    eventsRecordStage (.obj kvs) = ⟨false, [], some "Response missing 'events' array"⟩ := by
  simp [eventsRecordStage, recordStage, eventsAfterParse, flatValidate, pyContains, h]

/-- Witness for C6: the spec's own scenario record `{"stuff": []}`. -/
theorem C6_missing_container_key_witness :
    eventsRecordStage (.obj [("stuff", .arr [])])
      = ⟨false, [], some "Response missing 'events' array"⟩ :=
  C6_missing_container_key [("stuff", .arr [])] rfl

/-- C6 counterexample: `{"events": 42}` has the container key with a
non-sequence value; the code does not reject it with the missing-container
message (it fails later, iterating the number). -/
theorem C6_counterexample :
    (eventsRecordStage (.obj [("events", .num 42)])).error
      = some "Failed to process events: TypeError: object is not iterable"
    ∧ decide ((eventsRecordStage (.obj [("events", .num 42)])).error
        = some "Response missing 'events' array") = false := by
  exact ⟨rfl, rfl⟩

/-- C1 (amended): in the events and restaurant agents, a record whose
container sequence has every item before index k complete and item k (a
dict) missing a required field is rejected — items are checked in sequence
order, the first failure wins, and no typed result is constructed — but the
reported error is the fixed message of that agent, which does not identify
the index or the missing field name. -/
theorem C1_fail_fast_fixed_message
    (kvs : List (String × Json)) (pre post : List Json) (bk : List (String × Json)) (f : String)
    (hget : dictGet "events" kvs = some (.arr (pre ++ .obj bk :: post)))
    (hpre : ∀ e ∈ pre, pyAllContains e eventItemFields = .ok true)
    (hf : f ∈ eventItemFields) (hmiss : dictGet f bk = none)
    (rkvs : List (String × Json)) (rpre rpost : List Json) (rbk : List (String × Json))
    (g : String)
    (hrget : dictGet "restaurants" rkvs = some (.arr (rpre ++ .obj rbk :: rpost)))
    (hrpre : ∀ e ∈ rpre, pyAllContains e restaurantItemFields = .ok true)
    (hg : g ∈ restaurantItemFields) (hrmiss : dictGet g rbk = none) :
    eventsRecordStage (.obj kvs) = ⟨false, [], some "Invalid event structure in response"⟩
    ∧ restaurantRecordStage (.obj rkvs)
      = ⟨false, [], some "Invalid restaurant structure in response"⟩ := by
  constructor
  · have hloop : checkItemsFlat eventItemFields (pre ++ .obj bk :: post) = .ok false :=
      checkItemsFlat_first_bad hpre (pyAllContains_obj_missing hmiss hf)
    simp [eventsRecordStage, recordStage, eventsAfterParse, flatValidate, pyContains,
      pySubscript, pyIter, hget, hloop]
  · have hloop : checkItemsFlat restaurantItemFields (rpre ++ .obj rbk :: rpost) = .ok false :=
      checkItemsFlat_first_bad hrpre (pyAllContains_obj_missing hrmiss hg)
    simp [restaurantRecordStage, recordStage, restaurantAfterParse, flatValidate, pyContains,
      pySubscript, pyIter, hrget, hloop]

/-- Witness for C1: an events record whose only item lacks "category" and a
restaurant record whose only item lacks everything but "name". -/
theorem C1_fail_fast_fixed_message_witness :
    eventsRecordStage (.obj [("events", .arr [.obj
        [("name", .str "A"), ("description", .str "d"), ("date", .str "2024-04-01"),
          ("location", .str "L"), ("price", .num 10)]])])
      = ⟨false, [], some "Invalid event structure in response"⟩
    ∧ restaurantRecordStage (.obj [("restaurants", .arr [.obj [("name", .str "R")]])])
      = ⟨false, [], some "Invalid restaurant structure in response"⟩ :=
  C1_fail_fast_fixed_message
    [("events", .arr [.obj
      [("name", .str "A"), ("description", .str "d"), ("date", .str "2024-04-01"),
        ("location", .str "L"), ("price", .num 10)]])]
    [] []
    [("name", .str "A"), ("description", .str "d"), ("date", .str "2024-04-01"),
      ("location", .str "L"), ("price", .num 10)]
    "category" rfl (by simp) (by decide) rfl
    [("restaurants", .arr [.obj [("name", .str "R")]])] [] [] [("name", .str "R")]
    "cuisine" rfl (by simp) (by decide) rfl

/-- C1 counterexample: for the record whose item 0 misses "category", the
claimed identification of index and field does not happen — the error is a
fixed sentence containing neither "0" nor "category". -/
theorem C1_counterexample :
    (eventsRecordStage (.obj [("events", .arr [.obj
        [("name", .str "B"), ("description", .str "d"), ("date", .str "2024-04-02"),
          ("location", .str "L"), ("price", .num 12)]])])).error
      = some "Invalid event structure in response"
    ∧ strContainsSub "Invalid event structure in response" "category" = false
    ∧ strContainsSub "Invalid event structure in response" "0" = false := by
  refine ⟨rfl, by decide, by decide⟩

/-- C7 (amended): in the itinerary agent, a first day item that has "date"
but lacks the child container key "activities" is rejected with the
day-level fixed message, and a first day whose activities sequence has a
first incomplete activity (a dict missing a required field, after complete
ones) is rejected with the activity-level fixed message — the two levels
are distinguished, but neither message names the child key, the missing
field or any index. -/
theorem C7_nested_fixed_messages
    (kvs dk : List (String × Json)) (rest : List Json)
    (hget : dictGet "days" kvs = some (.arr (.obj dk :: rest)))
    (hdate : (dictGet "date" dk).isSome = true)
    (hacts : dictGet "activities" dk = none)
    (kvs' dk' : List (String × Json)) (rest' pre post : List Json)
    (bk : List (String × Json)) (f : String)
    (hget' : dictGet "days" kvs' = some (.arr (.obj dk' :: rest')))
    (hdate' : (dictGet "date" dk').isSome = true)
    (hacts' : dictGet "activities" dk' = some (.arr (pre ++ .obj bk :: post)))
    (hpre : ∀ e ∈ pre, pyAllContains e activityItemFields = .ok true)
    (hf : f ∈ activityItemFields) (hmiss : dictGet f bk = none) :
    itineraryRecordStage (.obj kvs) = ⟨false, [], some "Invalid day structure in response"⟩
    ∧ itineraryRecordStage (.obj kvs')
      = ⟨false, [], some "Invalid activity structure in response"⟩ := by
  constructor
  · simp [itineraryRecordStage, recordStage, itineraryAfterParse, checkDays, pyContains,
      pySubscript, pyIter, hget, hdate, hacts]
  · have hloop : checkItemsFlat activityItemFields (pre ++ .obj bk :: post) = .ok false :=
      checkItemsFlat_first_bad hpre (pyAllContains_obj_missing hmiss hf)
    simp [itineraryRecordStage, recordStage, itineraryAfterParse, checkDays, pyContains,
      pySubscript, pyIter, hget', hdate', hacts', hloop]

/-- Witness for C7: day 0 without "activities"; and the spec's nested
scenario — day 0's activities item 2 missing "category" while day 1 is
fully valid. -/
theorem C7_nested_fixed_messages_witness :
    itineraryRecordStage (.obj [("days", .arr [.obj [("date", .str "2024-04-01")]])])
      = ⟨false, [], some "Invalid day structure in response"⟩
    ∧ itineraryRecordStage (.obj [("days", .arr
        [.obj [("date", .str "2024-04-01"), ("activities", .arr
          [.obj [("name", .str "a"), ("description", .str "d"), ("start_time", .str "s"),
            ("end_time", .str "e"), ("location", .str "l"), ("category", .str "c")],
           .obj [("name", .str "a"), ("description", .str "d"), ("start_time", .str "s"),
            ("end_time", .str "e"), ("location", .str "l"), ("category", .str "c")],
           .obj [("name", .str "a"), ("description", .str "d"), ("start_time", .str "s"),
            ("end_time", .str "e"), ("location", .str "l")]])],
         .obj [("date", .str "2024-04-02"), ("activities", .arr [])]])])
      = ⟨false, [], some "Invalid activity structure in response"⟩ :=
  C7_nested_fixed_messages
    [("days", .arr [.obj [("date", .str "2024-04-01")]])]
    [("date", .str "2024-04-01")] [] rfl rfl rfl
    [("days", .arr
      [.obj [("date", .str "2024-04-01"), ("activities", .arr
        [.obj [("name", .str "a"), ("description", .str "d"), ("start_time", .str "s"),
          ("end_time", .str "e"), ("location", .str "l"), ("category", .str "c")],
         .obj [("name", .str "a"), ("description", .str "d"), ("start_time", .str "s"),
          ("end_time", .str "e"), ("location", .str "l"), ("category", .str "c")],
         .obj [("name", .str "a"), ("description", .str "d"), ("start_time", .str "s"),
          ("end_time", .str "e"), ("location", .str "l")]])],
       .obj [("date", .str "2024-04-02"), ("activities", .arr [])]])]
    [("date", .str "2024-04-01"), ("activities", .arr
      [.obj [("name", .str "a"), ("description", .str "d"), ("start_time", .str "s"),
        ("end_time", .str "e"), ("location", .str "l"), ("category", .str "c")],
       .obj [("name", .str "a"), ("description", .str "d"), ("start_time", .str "s"),
        ("end_time", .str "e"), ("location", .str "l"), ("category", .str "c")],
       .obj [("name", .str "a"), ("description", .str "d"), ("start_time", .str "s"),
        ("end_time", .str "e"), ("location", .str "l")]])]
    [.obj [("date", .str "2024-04-02"), ("activities", .arr [])]]
    [.obj [("name", .str "a"), ("description", .str "d"), ("start_time", .str "s"),
      ("end_time", .str "e"), ("location", .str "l"), ("category", .str "c")],
     .obj [("name", .str "a"), ("description", .str "d"), ("start_time", .str "s"),
      ("end_time", .str "e"), ("location", .str "l"), ("category", .str "c")]]
    []
    [("name", .str "a"), ("description", .str "d"), ("start_time", .str "s"),
      ("end_time", .str "e"), ("location", .str "l")]
    "category" rfl rfl rfl (by intro e he; fin_cases he <;> rfl) (by decide) rfl

/-- C7 counterexample: the messages identify nothing — the day-level error
does not name the child key "activities", and the activity-level error of
the nested scenario (day 0, activity 2, field "category") names neither the
nested index nor the field. -/
theorem C7_counterexample :
    (itineraryRecordStage (.obj [("days", .arr [.obj [("date", .str "d")]])])).error
      = some "Invalid day structure in response"
    ∧ strContainsSub "Invalid day structure in response" "activities" = false
    ∧ (itineraryRecordStage (.obj [("days", .arr
        [.obj [("date", .str "d"), ("activities", .arr
          [.obj [("name", .str "a"), ("description", .str "d"), ("start_time", .str "s"),
            ("end_time", .str "e"), ("location", .str "l"), ("category", .str "c")],
           .obj [("name", .str "a"), ("description", .str "d"), ("start_time", .str "s"),
            ("end_time", .str "e"), ("location", .str "l"), ("category", .str "c")],
           .obj [("name", .str "a"), ("description", .str "d"), ("start_time", .str "s"),
            ("end_time", .str "e"), ("location", .str "l")]])],
         .obj [("date", .str "d2"), ("activities", .arr [])]])])).error
      = some "Invalid activity structure in response"
    ∧ strContainsSub "Invalid activity structure in response" "2" = false
    ∧ strContainsSub "Invalid activity structure in response" "category" = false := by
  refine ⟨rfl, by decide, rfl, by decide, by decide⟩

/-- C9: a parsed record whose container key maps to the empty sequence
passes structural validation and typed construction in every domain — the
all-items check is vacuously satisfied — and the envelope is successful
with the container key mapped to the empty list; at process level (events),
a generator text that parses to such a record yields that envelope. -/
theorem C9_empty_container_succeeds
    (kvs rkvs ikvs : List (String × Json))
    (h1 : dictGet "events" kvs = some (.arr []))
    (h2 : dictGet "restaurants" rkvs = some (.arr []))
    (h3 : dictGet "days" ikvs = some (.arr []))
    (parse : String → Except String Json) (content : String) (input : List (String × Json))
    (hv : eventsValidateInput input = true)
    (hr : eventRequestNew input = .ok ())
    (hp : parse (cleanResponseText (pyStripStr content)) = .ok (.obj kvs)) :
    eventsRecordStage (.obj kvs) = ⟨true, [("events", .arr [])], none⟩
    ∧ restaurantRecordStage (.obj rkvs) = ⟨true, [("restaurants", .arr [])], none⟩
    ∧ itineraryRecordStage (.obj ikvs) = ⟨true, [("days", .arr [])], none⟩
    ∧ eventsProcess parse (.ok content) input = ⟨true, [("events", .arr [])], none⟩ := by
  have he : eventsRecordStage (.obj kvs) = ⟨true, [("events", .arr [])], none⟩ := by
    simp [eventsRecordStage, recordStage, eventsAfterParse, flatValidate, pyContains,
      pySubscript, pyIter, checkItemsFlat, h1, EventResponse.fromJson, mapExcept,
      EventResponse.toDict]
  refine ⟨he, ?_, ?_, ?_⟩
  · simp [restaurantRecordStage, recordStage, restaurantAfterParse, flatValidate, pyContains,
      pySubscript, pyIter, checkItemsFlat, h2, RestaurantResponse.fromJson, mapExcept,
      RestaurantResponse.toDict]
  · simp [itineraryRecordStage, recordStage, itineraryAfterParse, checkDays, pyContains,
      pySubscript, pyIter, h3, ItineraryResponse.fromDays, mapExcept,
      ItineraryResponse.toDict]
  · simp [eventsProcess, eventsProcessBody, hv, hr, parseStage, hp, he]

/-- Witness for C9: the three empty-container records and one full events
run whose generator text parses to the empty events record. -/
theorem C9_empty_container_succeeds_witness :
    eventsRecordStage (.obj [("events", .arr [])]) = ⟨true, [("events", .arr [])], none⟩
    ∧ restaurantRecordStage (.obj [("restaurants", .arr [])])
      = ⟨true, [("restaurants", .arr [])], none⟩
    ∧ itineraryRecordStage (.obj [("days", .arr [])]) = ⟨true, [("days", .arr [])], none⟩
    ∧ eventsProcess (fun _ => .ok (.obj [("events", .arr [])])) (.ok "")
        [("location", .str "Seattle"), ("date", .str "2024-04-01"),
          ("event_date", .str "2024-04-01"), ("preferences", .arr [.str "music"]),
          ("budget", .num 100)]
      = ⟨true, [("events", .arr [])], none⟩ :=
  C9_empty_container_succeeds
    [("events", .arr [])] [("restaurants", .arr [])] [("days", .arr [])]
    rfl rfl rfl
    (fun _ => .ok (.obj [("events", .arr [])])) ""
    [("location", .str "Seattle"), ("date", .str "2024-04-01"),
      ("event_date", .str "2024-04-01"), ("preferences", .arr [.str "music"]),
      ("budget", .num 100)]
    rfl rfl rfl

/-- C2: no agent's `process` raises outward.  Each `process` is a total
function of the input mapping and of an arbitrary behaviour of the external
generator call and of the generic parse, always returning an
`AgentResponse`; any exception of the body (`.error` of the body function)
is converted at the outermost boundary into `handle_error`'s failed
envelope, and a normal body result is returned unchanged. -/
theorem C2_process_never_raises (parse : String → Except String Json)
    (gen : Except String String) (input : List (String × Json)) :
    (∀ m, eventsProcessBody parse gen input = .error m →
      eventsProcess parse gen input = ⟨false, [], some m⟩)
    ∧ (∀ env, eventsProcessBody parse gen input = .ok env →
      eventsProcess parse gen input = env)
    ∧ (∀ m, restaurantProcessBody parse gen input = .error m →
      restaurantProcess parse gen input = ⟨false, [], some m⟩)
    ∧ (∀ env, restaurantProcessBody parse gen input = .ok env →
      restaurantProcess parse gen input = env)
    ∧ (∀ m, itineraryProcessBody parse gen input = .error m →
      itineraryProcess parse gen input = ⟨false, [], some m⟩)
    ∧ (∀ env, itineraryProcessBody parse gen input = .ok env →
      itineraryProcess parse gen input = env) := by
  refine ⟨fun m h => ?_, fun env h => ?_, fun m h => ?_, fun env h => ?_,
    fun m h => ?_, fun env h => ?_⟩
  · simp [eventsProcess, h, handleError]
  · simp [eventsProcess, h]
  · simp [restaurantProcess, h, handleError]
  · simp [restaurantProcess, h]
  · simp [itineraryProcess, h, handleError]
  · simp [itineraryProcess, h]

/-- Witness for C2: with an empty input mapping and a raising generator,
the events body yields the invalid-input envelope and `process` returns
exactly it. -/
theorem C2_process_never_raises_witness :
    eventsProcess (fun _ => .error "bad json") (.error "timeout") []
      = ⟨false, [], some "Invalid input data"⟩ :=
  (C2_process_never_raises (fun _ => .error "bad json") (.error "timeout") []).2.1
    ⟨false, [], some "Invalid input data"⟩ rfl

/-- C3: every envelope any agent's `process` returns satisfies the
invariant — on success the error is absent, the data dict is non-empty and
deserializes back into the domain response model; on failure the data dict
is empty. -/
theorem C3_envelope_invariant (parse : String → Except String Json)
    (gen : Except String String) (input : List (String × Json)) :
    ((eventsProcess parse gen input).success = true →
      (eventsProcess parse gen input).error = none
      ∧ (eventsProcess parse gen input).data ≠ []
      ∧ isOkE (EventResponse.fromJson (.obj (eventsProcess parse gen input).data)) = true)
    ∧ ((eventsProcess parse gen input).success = false →
      (eventsProcess parse gen input).data = [])
    ∧ ((restaurantProcess parse gen input).success = true →
      (restaurantProcess parse gen input).error = none
      ∧ (restaurantProcess parse gen input).data ≠ []
      ∧ isOkE (RestaurantResponse.fromJson
          (.obj (restaurantProcess parse gen input).data)) = true)
    ∧ ((restaurantProcess parse gen input).success = false →
      (restaurantProcess parse gen input).data = [])
    ∧ ((itineraryProcess parse gen input).success = true →
      (itineraryProcess parse gen input).error = none
      ∧ (itineraryProcess parse gen input).data ≠ []
      ∧ isOkE (ItineraryResponse.fromJson
          (.obj (itineraryProcess parse gen input).data)) = true)
    ∧ ((itineraryProcess parse gen input).success = false →
      (itineraryProcess parse gen input).data = []) := by
  refine ⟨?_, ?_, ?_, ?_, ?_, ?_⟩
  · intro h
    rcases eventsProcess_good parse gen input with ⟨hs, _⟩ | ⟨r, he⟩
    · rw [hs] at h
      exact absurd h (by simp)
    · rw [he]
      exact ⟨rfl, by simp [EventResponse.toDict], by
        show isOkE (EventResponse.fromJson (.obj (EventResponse.toDict r))) = true
        rw [eventResponse_roundtrip]
        rfl⟩
  · intro h
    rcases eventsProcess_good parse gen input with ⟨_, hd⟩ | ⟨r, he⟩
    · exact hd
    · rw [he] at h
      exact absurd h (by simp)
  · intro h
    rcases restaurantProcess_good parse gen input with ⟨hs, _⟩ | ⟨r, he⟩
    · rw [hs] at h
      exact absurd h (by simp)
    · rw [he]
      exact ⟨rfl, by simp [RestaurantResponse.toDict], by
        show isOkE (RestaurantResponse.fromJson (.obj (RestaurantResponse.toDict r))) = true
        rw [restaurantResponse_roundtrip]
        rfl⟩
  · intro h
    rcases restaurantProcess_good parse gen input with ⟨_, hd⟩ | ⟨r, he⟩
    · exact hd
    · rw [he] at h
      exact absurd h (by simp)
  · intro h
    rcases itineraryProcess_good parse gen input with ⟨hs, _⟩ | ⟨r, he⟩
    · rw [hs] at h
      exact absurd h (by simp)
    · rw [he]
      exact ⟨rfl, by simp [ItineraryResponse.toDict], by
        show isOkE (ItineraryResponse.fromJson (.obj (ItineraryResponse.toDict r))) = true
        rw [itineraryResponse_roundtrip]
        rfl⟩
  · intro h
    rcases itineraryProcess_good parse gen input with ⟨_, hd⟩ | ⟨r, he⟩
    · exact hd
    · rw [he] at h
      exact absurd h (by simp)

/-- Witness for C3: a successful events run (the envelope deserializes and
has no error) and a failed itinerary run on the same inputs (its data is
empty). -/
theorem C3_envelope_invariant_witness :
    ((eventsProcess (fun _ => .ok (.obj [("events", .arr [])])) (.ok "")
        [("location", .str "Seattle"), ("date", .str "2024-04-01"),
          ("event_date", .str "2024-04-01"), ("preferences", .arr [.str "music"]),
          ("budget", .num 100)]).error = none
      ∧ (eventsProcess (fun _ => .ok (.obj [("events", .arr [])])) (.ok "")
          [("location", .str "Seattle"), ("date", .str "2024-04-01"),
            ("event_date", .str "2024-04-01"), ("preferences", .arr [.str "music"]),
            ("budget", .num 100)]).data ≠ []
      ∧ isOkE (EventResponse.fromJson (.obj (eventsProcess
          (fun _ => .ok (.obj [("events", .arr [])])) (.ok "")
          [("location", .str "Seattle"), ("date", .str "2024-04-01"),
            ("event_date", .str "2024-04-01"), ("preferences", .arr [.str "music"]),
            ("budget", .num 100)]).data)) = true)
    ∧ (itineraryProcess (fun _ => .ok (.obj [("events", .arr [])])) (.ok "")
        [("location", .str "Seattle"), ("date", .str "2024-04-01"),
          ("event_date", .str "2024-04-01"), ("preferences", .arr [.str "music"]),
          ("budget", .num 100)]).data = [] :=
  ⟨(C3_envelope_invariant (fun _ => .ok (.obj [("events", .arr [])])) (.ok "")
      [("location", .str "Seattle"), ("date", .str "2024-04-01"),
        ("event_date", .str "2024-04-01"), ("preferences", .arr [.str "music"]),
        ("budget", .num 100)]).1 rfl,
   ((C3_envelope_invariant (fun _ => .ok (.obj [("events", .arr [])])) (.ok "")
      [("location", .str "Seattle"), ("date", .str "2024-04-01"),
        ("event_date", .str "2024-04-01"), ("preferences", .arr [.str "music"]),
        ("budget", .num 100)]).2.2.2.2.2) rfl⟩

/-- C8 (amended): the normalizer strips a leading "```json" marker and a
trailing "```" marker independently of each other, then trims whitespace.
On any string that carries neither marker (before and after trimming) it
returns the whitespace-trimmed string, is idempotent, and normalizing the
fence-wrapped string agrees with normalizing the bare string.  Full
idempotence and fence-insensitivity fail in general
(`C8_counterexample`). -/
theorem C8_normalizer_conditional (l : List Char)
    (h1 : fenceOpen.isPrefixOf l = false)
    (h2 : fenceClose.isSuffixOf l = false)
    (h3 : fenceOpen.isPrefixOf (pyStripL l) = false)
    (h4 : fenceClose.isSuffixOf (pyStripL l) = false) :
    cleanL l = pyStripL l
    ∧ cleanL (cleanL l) = cleanL l
    ∧ cleanL (fenceOpen ++ l ++ fenceClose) = cleanL l := by
  have e1 : cleanL l = pyStripL l := by
    simp [cleanL, h1, h2]
  have e2 : cleanL (pyStripL l) = pyStripL (pyStripL l) := by
    simp [cleanL, h3, h4]
  refine ⟨e1, ?_, ?_⟩
  · rw [e1, e2, pyStripL_idem, ← e1]
  · have hpre : fenceOpen.isPrefixOf (fenceOpen ++ l ++ fenceClose) = true := by
      apply List.isPrefixOf_iff_prefix.mpr
      rw [List.append_assoc]
      exact List.prefix_append _ _
    have hdrop : (fenceOpen ++ l ++ fenceClose).drop 7 = l ++ fenceClose := by
      rw [List.append_assoc]
      have h7 : (7 : Nat) = fenceOpen.length := rfl
      rw [h7, List.drop_left]
    have hsuf : fenceClose.isSuffixOf (l ++ fenceClose) = true := by
      apply List.isSuffixOf_iff_suffix.mpr
      exact List.suffix_append _ _
    have htake : (l ++ fenceClose).take ((l ++ fenceClose).length - 3) = l := by
      have h3len : fenceClose.length = 3 := rfl
      rw [List.length_append, h3len, Nat.add_sub_cancel, List.take_left]
    have hw : cleanL (fenceOpen ++ l ++ fenceClose) = pyStripL l := by
      simp only [cleanL, hpre, hdrop, hsuf, htake, eq_self_iff_true, if_true]
    rw [hw, e1]

/-- Witness for C8: a marker-free string. -/
theorem C8_normalizer_conditional_witness :
    cleanL "hello".data = pyStripL "hello".data
    ∧ cleanL (cleanL "hello".data) = cleanL "hello".data
    ∧ cleanL (fenceOpen ++ "hello".data ++ fenceClose) = cleanL "hello".data :=
  C8_normalizer_conditional "hello".data (by decide) (by decide) (by decide) (by decide)

/-- C8 counterexample refuting all three clauses of the claim as stated:
normalizing is not idempotent (a normalized string may still carry markers
that a second pass strips), a fence-wrapped string need not normalize like
its content, and a string that is not fence-wrapped (only a trailing
marker) is altered beyond trimming. -/
theorem C8_counterexample :
    cleanResponseText "```json```json x``````" = "```json x```"
    ∧ decide (cleanResponseText (cleanResponseText "```json```json x``````")
        = cleanResponseText "```json```json x``````") = false
    ∧ decide (cleanResponseText ("```json" ++ "a```" ++ "```")
        = cleanResponseText "a```") = false
    ∧ decide (cleanResponseText "a```" = pyStripStr "a```") = false := by
  refine ⟨by decide, by decide, by decide, by decide⟩
